import Mathlib

/-!
Verification of the `tosca` controller orchestration layer: the hazard
taxonomy, the privacy-policy gate, the request senders, the event
subscription manager and the controller lifecycle, shallowly embedded
from the Rust sources (`tosca/src/hazards.rs`,
`tosca-controller/src/policy.rs`, `tosca-controller/src/controller.rs`,
`tosca-controller/src/events.rs`, `tosca-controller/src/response.rs`).
-/

namespace Tosca

/-- All possible hazards for a device route (`hazards.rs`, `enum Hazard`). -/
inductive Hazard where
  | AirPoisoning
  | Asphyxia
  | AudioVideoDisplay
  | AudioVideoRecordAndStore
  | ElectricEnergyConsumption
  | Explosion
  | FireHazard
  | GasConsumption
  | LogEnergyConsumption
  | LogUsageTime
  | PaySubscriptionFee
  | PowerOutage
  | PowerSurge
  | RecordIssuedCommands
  | RecordUserPreferences
  | SpendMoney
  | SpoiledFood
  | TakeDeviceScreenshots
  | TakePictures
  | UnauthorisedPhysicalAccess
  | VideoDisplay
  | VideoRecordAndStore
  | WaterConsumption
  | WaterFlooding
deriving DecidableEq, Repr, Fintype

/-- The numeric identifier of a hazard (`hazards.rs`, `Hazard::id`).
The source returns a `u16`; every returned value is below 24, so the
embedding uses `Nat` with the same literals. -/
def Hazard.id : Hazard → Nat
  | .AirPoisoning => 0
  | .Asphyxia => 1
  | .AudioVideoDisplay => 2
  | .AudioVideoRecordAndStore => 3
  | .ElectricEnergyConsumption => 4
  | .Explosion => 5
  | .FireHazard => 6
  | .GasConsumption => 7
  | .LogEnergyConsumption => 8
  | .LogUsageTime => 9
  | .PaySubscriptionFee => 10
  | .PowerOutage => 11
  | .PowerSurge => 12
  | .RecordIssuedCommands => 13
  | .RecordUserPreferences => 14
  | .SpendMoney => 15
  | .SpoiledFood => 16
  | .TakeDeviceScreenshots => 17
  | .TakePictures => 18
  | .UnauthorisedPhysicalAccess => 19
  | .VideoDisplay => 20
  | .VideoRecordAndStore => 21
  | .WaterConsumption => 22
  | .WaterFlooding => 23

/-- The hazard associated with a numeric identifier (`hazards.rs`,
`Hazard::from_id`); `none` on any identifier outside the 24 listed ones. -/
def Hazard.from_id : Nat → Option Hazard
  | 0 => some .AirPoisoning
  | 1 => some .Asphyxia
  | 2 => some .AudioVideoDisplay
  | 3 => some .AudioVideoRecordAndStore
  | 4 => some .ElectricEnergyConsumption
  | 5 => some .Explosion
  | 6 => some .FireHazard
  | 7 => some .GasConsumption
  | 8 => some .LogEnergyConsumption
  | 9 => some .LogUsageTime
  | 10 => some .PaySubscriptionFee
  | 11 => some .PowerOutage
  | 12 => some .PowerSurge
  | 13 => some .RecordIssuedCommands
  | 14 => some .RecordUserPreferences
  | 15 => some .SpendMoney
  | 16 => some .SpoiledFood
  | 17 => some .TakeDeviceScreenshots
  | 18 => some .TakePictures
  | 19 => some .UnauthorisedPhysicalAccess
  | 20 => some .VideoDisplay
  | 21 => some .VideoRecordAndStore
  | 22 => some .WaterConsumption
  | 23 => some .WaterFlooding
  | _ => none

/-- Modelled from the spec: the `set!` macro that builds the `Hazards`
collection (`tosca/src/macros`) is not under `src/`; the spec says
"Hazards form an unordered set with value-unique membership" and the
source wraps an insertion-ordered `IndexSet`.  The embedding is a list
with value-unique membership preserved by `add`. -/
structure Hazards where
  elems : List Hazard
deriving DecidableEq, Repr

/-- The empty hazard collection (`Hazards::new`). -/
def Hazards.new : Hazards := ⟨[]⟩

/-- Membership test on a hazard collection (`Hazards::contains`). -/
def Hazards.contains (s : Hazards) (h : Hazard) : Bool := decide (h ∈ s.elems)

/-- In-place insertion (`Hazards::add`): appends the hazard unless it is
already present (`IndexSet::insert` keeps the first occurrence). -/
def Hazards.add (s : Hazards) (h : Hazard) : Hazards :=
  if s.contains h then s else ⟨s.elems ++ [h]⟩

/-- Builder-style insertion returning the collection (`Hazards::insert`). -/
def Hazards.insert (s : Hazards) (h : Hazard) : Hazards := s.add h

/-- Emptiness test on a hazard collection (`Hazards::is_empty`). -/
def Hazards.isEmpty (s : Hazards) : Bool := s.elems.isEmpty

/-- Association-list lookup standing for `HashMap::get` keyed by the
device identifier. -/
def lookupDevice : List (Nat × Hazards) → Nat → Option Hazards
  | [], _ => none
  | (k, v) :: rest, id => if k = id then some v else lookupDevice rest id

/-- Association-list insertion standing for `HashMap::insert` keyed by the
device identifier: replaces any prior entry for the same key. -/
def insertDevice : List (Nat × Hazards) → Nat → Hazards → List (Nat × Hazards)
  | [], id, hs => [(id, hs)]
  | (k, v) :: rest, id, hs =>
      if k = id then (id, hs) :: rest else (k, v) :: insertDevice rest id hs

/-- A privacy policy manager (`policy.rs`, `struct Policy`): one global
hazard-block set and one per-device hazard-block map. -/
structure Policy where
  block_on_hazards : Hazards
  block_device_on_hazards : List (Nat × Hazards)
deriving DecidableEq, Repr

/-- `Policy::new`: blocks all requests carrying the given hazards. -/
def Policy.new (block_on_hazards : Hazards) : Policy :=
  ⟨block_on_hazards, []⟩

/-- `Policy::init`: the default, fully permissive policy. -/
def Policy.init : Policy := ⟨Hazards.new, []⟩

/-- Builder `Policy::block_device_on_hazards`: adds (replacing any prior
entry) a per-device block set.  Named apart from the field it updates. -/
def Policy.blockDeviceOnHazards (p : Policy) (id : Nat) (hazards : Hazards) : Policy :=
  { p with block_device_on_hazards := insertDevice p.block_device_on_hazards id hazards }

/-- `Policy::only_local_policy`: a policy with only one per-device rule. -/
def Policy.only_local_policy (id : Nat) (hazards : Hazards) : Policy :=
  Policy.init.blockDeviceOnHazards id hazards

/-- The loop body shared by both blocked-hazard computations in
`policy.rs`: collect, via `Hazards::add`, the input hazards contained in
the block set. -/
def blockedLoop (blockSet : Hazards) (hazards : Hazards) : Hazards :=
  hazards.elems.foldl
    (fun acc h => if blockSet.contains h then acc.add h else acc) Hazards.new

/-- `Policy::global_blocked_hazards`: the input hazards that the global
block set contains. -/
def Policy.global_blocked_hazards (p : Policy) (hazards : Hazards) : Hazards :=
  blockedLoop p.block_on_hazards hazards

/-- `Policy::local_blocked_hazards`: the input hazards that the block set
registered for the device contains; empty when the device has no entry. -/
def Policy.local_blocked_hazards (p : Policy) (id : Nat) (hazards : Hazards) : Hazards :=
  match lookupDevice p.block_device_on_hazards id with
  | some local_hazards => blockedLoop local_hazards hazards
  | none => Hazards.new

/-- The spec's "local block set for a device id": the per-device entry of
the policy, an absent entry standing for the empty set. -/
def localBlockSet (p : Policy) (id : Nat) : Hazards :=
  match lookupDevice p.block_device_on_hazards id with
  | some local_hazards => local_hazards
  | none => Hazards.new

/-- Modelled from the spec: `error.rs` is not under `src/`; the error
kinds are those named by the sources in `src/` (`ErrorKind::Sender`,
`ErrorKind::Events`, `ErrorKind::JsonResponse`) plus a kind for broker
subscribe failures surfaced by `start_event_receivers`. -/
inductive ErrorKind where
  | Sender
  | Events
  | JsonResponse
  | Broker
deriving DecidableEq, Repr

/-- Modelled from the spec: `error.rs` is not under `src/`; an error is a
kind together with the message passed to `Error::new` in `src/`. -/
structure Error where
  kind : ErrorKind
  message : String
deriving DecidableEq, Repr

/-- `controller.rs`, `fn sender_error`: a `Sender`-kind error. -/
def sender_error (message : String) : Error := ⟨ErrorKind.Sender, message⟩

/-- An opaque token standing for the external `reqwest::Response` wrapped
by the body parsers in `response.rs`. -/
structure ReqwestResponse where
  token : Nat
deriving DecidableEq, Repr

/-- All response types supported by a `tosca` device (`response.rs`,
`enum Response`): the policy-suppressed `Skipped` sentinel or one of the
body kinds, each wrapping the transport's raw response. -/
inductive Response where
  | Skipped
  | OkBody (body : ReqwestResponse)
  | SerialBody (body : ReqwestResponse)
  | InfoBody (body : ReqwestResponse)
deriving DecidableEq, Repr

/-- An opaque token standing for the parameter values supplied to
`send_with_parameters` (`tosca/src/parameters.rs` is not under `src/`;
only their identity matters to the orchestration layer). -/
structure ParametersValues where
  token : Nat
deriving DecidableEq, Repr

/-- Modelled from the spec: `request.rs` is not under `src/`; a Request
descriptor "carries its hazard set and its parameter schema".  Schema
entries are opaque; only their presence matters to the senders. -/
structure Request where
  hazards : Hazards
  parameters_data : List Nat
deriving DecidableEq, Repr

/-- The external transport collaborator (spec §6): a parameterless call
and a parameterized call, each yielding a response or a transport error. -/
structure Transport where
  plain_send : Except Error Response
  create_response : ParametersValues → Except Error Response

/-- Modelled from the spec: `Request::retrieve_response` lives in the
missing `request.rs`; the spec says "if skip is true, returns `Skipped`
without any network call ...; otherwise delegates to the external
transport".  The returned `Nat` counts the transport calls performed. -/
def Request.retrieve_response (_r : Request) (skip : Bool)
    (call : Except Error Response) : Except Error Response × Nat :=
  if skip then (Except.ok Response.Skipped, 0) else (call, 1)

/-- An opaque token standing for the broker address, port and topic of an
event-source description (`tosca/src/events.rs`, `EventsDescription`). -/
structure EventsDescription where
  token : Nat
deriving DecidableEq, Repr

/-- `events.rs`, `struct Events`: the event-source description together
with the token used to cancel the event task (tokens carry an identity). -/
structure Events where
  description : EventsDescription
  cancellation_token : Nat
deriving DecidableEq, Repr

/-- Modelled from the spec: `device.rs` is not under `src/`; a Device
"holds its request descriptors (keyed by route string, lookup fails if
absent), an optional event-source description, and at most one running
event subscription (task handle + cancellation signal)". -/
structure Device where
  requests : List (String × Request)
  events : Option Events
  event_handle : Option Nat
deriving DecidableEq, Repr

/-- Route lookup on the descriptor table of a device. -/
def lookupRoute : List (String × Request) → String → Option Request
  | [], _ => none
  | (k, v) :: rest, route => if k = route then some v else lookupRoute rest route

/-- Modelled from the spec: `Device::request` (missing `device.rs`) looks
a request descriptor up by its route string; `none` if absent. -/
def Device.request (d : Device) (route : String) : Option Request :=
  lookupRoute d.requests route

/-- `controller.rs`, `struct Controller`: the discovery configuration
(opaque), the device registry and the privacy policy. -/
structure Controller where
  discovery : Nat
  devices : List Device
  privacy_policy : Policy
deriving DecidableEq, Repr

/-- `Controller::new`: empty registry, default permissive policy. -/
def Controller.new (discovery : Nat) : Controller :=
  ⟨discovery, [], Policy.init⟩

/-- `Controller::from_devices`: initial registry, default policy. -/
def Controller.from_devices (discovery : Nat) (devices : List Device) : Controller :=
  ⟨discovery, devices, Policy.init⟩

/-- Builder `Controller::policy`: sets the policy at construction. -/
def Controller.policy (c : Controller) (privacy_policy : Policy) : Controller :=
  { c with privacy_policy := privacy_policy }

/-- `Controller::change_policy`: wholesale-replaces the policy. -/
def Controller.change_policy (c : Controller) (privacy_policy : Policy) : Controller :=
  { c with privacy_policy := privacy_policy }

/-- A device sender (`controller.rs`, `struct DeviceSender`): the borrowed
controller, the device and its registry index. -/
structure DeviceSender where
  controller : Controller
  device : Device
  id : Nat
deriving DecidableEq, Repr

/-- A request sender (`controller.rs`, `struct RequestSender`): the
borrowed controller, the request descriptor and the cached skip flag. -/
structure RequestSender where
  controller : Controller
  request : Request
  skip : Bool
deriving DecidableEq, Repr

/-- One `warn!` record emitted by `DeviceSender::evaluate_privacy_policy`:
names the route, the blocked hazards and which rule blocked them. -/
inductive Warning where
  | globalRule (route : String) (blocked : Hazards)
  | localRule (route : String) (blocked : Hazards)
deriving DecidableEq, Repr

/-- `DeviceSender::evaluate_privacy_policy` (`controller.rs`): computes
the two blocked-hazard intersections and sets skip when either is
non-empty; also returns the warnings the source logs, in order. -/
def DeviceSender.evaluate_privacy_policy (s : DeviceSender) (request : Request)
    (route : String) : Bool × List Warning :=
  let global_blocked_hazards :=
    s.controller.privacy_policy.global_blocked_hazards request.hazards
  let local_blocked_hazards :=
    s.controller.privacy_policy.local_blocked_hazards s.id request.hazards
  let warnings :=
    (if global_blocked_hazards.isEmpty then []
     else [Warning.globalRule route global_blocked_hazards]) ++
    (if local_blocked_hazards.isEmpty then []
     else [Warning.localRule route local_blocked_hazards])
  (!global_blocked_hazards.isEmpty || !local_blocked_hazards.isEmpty, warnings)

/-- `DeviceSender::request` (`controller.rs`): looks the route up, fails
with a `Sender` error if absent; otherwise evaluates the privacy policy
(bypassed when the route declares no hazards) and caches the skip flag on
the returned sender.  Paired with the warnings emitted during evaluation. -/
def DeviceSender.request (s : DeviceSender) (route : String) :
    Except Error (RequestSender × List Warning) :=
  match s.device.request route with
  | none =>
      Except.error (sender_error
        ("Error in retrieving the request with route `" ++ route ++ "`."))
  | some request =>
      let sw := if request.hazards.isEmpty then (false, [])
                else s.evaluate_privacy_policy request route
      Except.ok (⟨s.controller, request, sw.1⟩, sw.2)

/-- `Controller::device` (`controller.rs`): empty-registry error first,
then index lookup with a device-not-found error. -/
def Controller.device (c : Controller) (id : Nat) : Except Error DeviceSender :=
  if c.devices.isEmpty then
    Except.error (sender_error "No devices found.")
  else
    match c.devices[id]? with
    | none =>
        Except.error (sender_error
          ("Error in retrieving the device with identifier " ++ toString id ++ "."))
    | some device => Except.ok ⟨c, device, id⟩

/-- `RequestSender::send` (`controller.rs`): delegates to
`retrieve_response` with the cached skip flag and the parameterless
transport call. -/
def RequestSender.send (s : RequestSender) (transport : Transport) :
    Except Error Response × Nat :=
  s.request.retrieve_response s.skip transport.plain_send

/-- `RequestSender::send_with_parameters` (`controller.rs`): when the
route declares no parameters, logs a warning and falls back to `send`;
otherwise delegates to `retrieve_response` with the parameterized call. -/
def RequestSender.send_with_parameters (s : RequestSender) (transport : Transport)
    (parameters : ParametersValues) : Except Error Response × Nat :=
  if s.request.parameters_data.isEmpty then
    s.send transport
  else
    s.request.retrieve_response s.skip (transport.create_response parameters)

/-- The result returned by a successful `start_event_receivers` call: the
consuming end of the shared queue (represented by its capacity, the
`buffer_size` passed to `mpsc::channel`) together with the ids of the
devices for which a subscriber task was spawned, in registry order. -/
structure StartResult where
  capacity : Nat
  started : List Nat
deriving DecidableEq, Repr

/-- The per-device loop of `Controller::start_event_receivers`
(`controller.rs`): skip a device whose `event_handle` is set, skip a
device without an event-source description, otherwise subscribe and spawn
(`EventsRunner::run_global_subscriber`); a subscribe failure aborts the
whole call (the source applies `?`), leaving earlier spawns running.
`subscribe` is the external broker collaborator, indexed by device id. -/
def startLoop (subscribe : Nat → Except Error Unit) :
    List (Nat × Device) → Except Error (List Nat)
  | [] => Except.ok []
  | (id, device) :: rest =>
    if device.event_handle.isSome then startLoop subscribe rest
    else
      match device.events with
      | none => startLoop subscribe rest
      | some _ =>
        match subscribe id with
        | Except.error e => Except.error e
        | Except.ok _ =>
          match startLoop subscribe rest with
          | Except.error e => Except.error e
          | Except.ok started => Except.ok (id :: started)

/-- `Controller::start_event_receivers` (`controller.rs`): runs the
per-device loop over the enumerated registry and fails with an
`Events`-kind error when no task was started.  The controller is returned
alongside because the source takes `&mut self`; the loop body assigns no
device field (in particular the `JoinHandle` returned by
`run_global_subscriber` is discarded), so the state comes back unchanged. -/
def Controller.start_event_receivers (c : Controller) (buffer_size : Nat)
    (subscribe : Nat → Except Error Unit) : Except Error StartResult × Controller :=
  let result :=
    match startLoop subscribe c.devices.enum with
    | Except.error e => Except.error e
    | Except.ok started =>
      if started.length = 0 then
        Except.error ⟨ErrorKind.Events, "No event receiver tasks has started"⟩
      else
        Except.ok ⟨buffer_size, started⟩
  (result, c)

/-- The ids of the devices eligible to be started by
`start_event_receivers`: no recorded task handle and an event-source
description present, in registry order. -/
def eligibleIds (devices : List Device) : List Nat :=
  (devices.enum.filter fun p => !p.2.event_handle.isSome && p.2.events.isSome).map
    Prod.fst

/-- One observable step of `Controller::shutdown`: cancelling a device's
cancellation token or awaiting a task handle. -/
inductive ShutdownAction where
  | cancel (token : Nat)
  | awaitTask (task : Nat)
deriving DecidableEq, Repr

/-- The body of the `Controller::shutdown` loop (`controller.rs`) for one
device, threading the action trace and the error log: cancel the token
when the device has an events description, then await the task handle
when one is recorded, logging (second component) a failed await. -/
def shutdownStep (join : Nat → Except String Unit)
    (acc : List ShutdownAction × List String) (device : Device) :
    List ShutdownAction × List String :=
  let acc₁ :=
    match device.events with
    | some events => (acc.1 ++ [ShutdownAction.cancel events.cancellation_token], acc.2)
    | none => acc
  match device.event_handle with
  | some event_handle =>
    match join event_handle with
    | Except.error e =>
        (acc₁.1 ++ [ShutdownAction.awaitTask event_handle], acc₁.2 ++ [e])
    | Except.ok _ =>
        (acc₁.1 ++ [ShutdownAction.awaitTask event_handle], acc₁.2)
  | none => acc₁

/-- `Controller::shutdown` (`controller.rs`): consumes the controller;
runs the shutdown loop body over every device in registry order; the
return type has no error channel — task failures only reach the log.
`join` is the external completion outcome of each task handle. -/
def Controller.shutdown (c : Controller) (join : Nat → Except String Unit) :
    List ShutdownAction × List String :=
  c.devices.foldl (shutdownStep join) ([], [])

/-- The actions `shutdown` performs for one device: cancel its token when
it has an events description, then await its handle when one is recorded. -/
def shutdownDeviceActions (d : Device) : List ShutdownAction :=
  (match d.events with
   | some events => [ShutdownAction.cancel events.cancellation_token]
   | none => []) ++
  (match d.event_handle with
   | some event_handle => [ShutdownAction.awaitTask event_handle]
   | none => [])

/-- The log entries `shutdown` records for one device: the join error of
its awaited handle, when the await fails. -/
def shutdownDeviceLog (join : Nat → Except String Unit) (d : Device) : List String :=
  match d.event_handle with
  | some event_handle =>
    match join event_handle with
    | Except.error e => [e]
    | Except.ok _ => []
  | none => []

/-- An opaque decoded event batch (`tosca::events::Events`); the payload
of a publish packet deserializes to an `Option` of these (`events.rs`,
`parse_event`, `serde_json::from_slice`). -/
structure ToscaEvents where
  token : Nat
deriving DecidableEq, Repr

/-- An opaque broker connection error (`rumqttc ConnectionError`). -/
structure ConnError where
  msg : String
deriving DecidableEq, Repr

instance {ε α : Type} [DecidableEq ε] [DecidableEq α] : DecidableEq (Except ε α) :=
  fun x y =>
    match x, y with
    | Except.error a, Except.error b =>
      if h : a = b then isTrue (by rw [h])
      else isFalse (by intro hh; injection hh with h2; exact h h2)
    | Except.ok a, Except.ok b =>
      if h : a = b then isTrue (by rw [h])
      else isFalse (by intro hh; injection hh with h2; exact h h2)
    | Except.error _, Except.ok _ => isFalse (by intro hh; exact Except.noConfusion hh)
    | Except.ok _, Except.error _ => isFalse (by intro hh; exact Except.noConfusion hh)

/-- An incoming broker packet, represented by what the subscriber loop can
observe of it: a publish packet carries the decode outcome of its payload
(external `serde_json` behaviour), any other packet only a tag. -/
inductive Packet where
  | publish (decode : Except String (Option ToscaEvents))
  | other (tag : Nat)
deriving DecidableEq, Repr

/-- A broker event (`rumqttc Event`): an incoming packet or an outgoing
one (represented by a tag). -/
inductive MqttEvent where
  | incoming (packet : Packet)
  | outgoing (tag : Nat)
deriving DecidableEq, Repr

/-- `events.rs`, `fn parse_event`: poll errors, outgoing packets,
non-publish packets and undecodable payloads are logged and yield `none`;
a decoded publish payload yields its `Option<Events>` content. -/
def parse_event (event : Except ConnError MqttEvent) : Option ToscaEvents :=
  match event with
  | Except.error _ => none
  | Except.ok (MqttEvent.outgoing _) => none
  | Except.ok (MqttEvent.incoming (Packet.other _)) => none
  | Except.ok (MqttEvent.incoming (Packet.publish decode)) =>
    match decode with
    | Except.ok tosca_events => tosca_events
    | Except.error _ => none

/-- One observable iteration of the `tokio::select!` race in a subscriber
loop: either the cancellation token fires, or the event loop yields a
poll outcome; `sendOk` records whether the sink send would succeed if a
decoded batch were pushed on this iteration. -/
inductive Step where
  | cancelled
  | polled (event : Except ConnError MqttEvent) (sendOk : Bool)
deriving DecidableEq, Repr

/-- Why a subscriber loop left its polling state. -/
inductive ExitReason where
  | cancelled
  | sendFailed
deriving DecidableEq, Repr

/-- `events.rs`, `fn run_global_event_subscriber` (fan-in): processes the
iteration schedule, collecting the event batches pushed to the shared
queue; breaks on cancellation or on a failed push (consumer end dropped);
unparsed poll outcomes are discarded and the loop keeps polling.  A `none`
exit means the schedule ended with the loop still polling. -/
def run_global_event_subscriber : List Step → List ToscaEvents × Option ExitReason
  | [] => ([], none)
  | Step.cancelled :: _ => ([], some ExitReason.cancelled)
  | Step.polled event sendOk :: rest =>
    match parse_event event with
    | none => run_global_event_subscriber rest
    | some tosca_events =>
      if sendOk then
        let next := run_global_event_subscriber rest
        (tosca_events :: next.1, next.2)
      else ([], some ExitReason.sendFailed)

/-- `events.rs`, `fn run_event_subscriber` (fan-out, per-device broadcast):
same loop body as the fan-in subscriber — including the `break` on a
failed `broadcast::Sender::send` — differing in the source only by the
sink channel and a fixed 100 ms sleep after each cycle (not observable
here). -/
def run_event_subscriber : List Step → List ToscaEvents × Option ExitReason
  | [] => ([], none)
  | Step.cancelled :: _ => ([], some ExitReason.cancelled)
  | Step.polled event sendOk :: rest =>
    match parse_event event with
    | none => run_event_subscriber rest
    | some tosca_events =>
      if sendOk then
        let next := run_event_subscriber rest
        (tosca_events :: next.1, next.2)
      else ([], some ExitReason.sendFailed)

/-! ## Lemmas about the hazard collections and the policy intersections -/

theorem Hazards.mem_add (s : Hazards) (h x : Hazard) :
    x ∈ (s.add h).elems ↔ x ∈ s.elems ∨ x = h := by
  unfold Hazards.add Hazards.contains
  by_cases hc : h ∈ s.elems
  · rw [if_pos (by simpa using hc)]
    constructor
    · exact Or.inl
    · rintro (hx | rfl)
      · exact hx
      · exact hc
  · rw [if_neg (by simpa using hc)]
    simp

theorem mem_foldl_blocked (b : Hazards) (hs : List Hazard) (acc : Hazards) (x : Hazard) :
    x ∈ (hs.foldl (fun acc h => if b.contains h then acc.add h else acc) acc).elems ↔
      x ∈ acc.elems ∨ (x ∈ hs ∧ b.contains x = true) := by
  induction hs generalizing acc with
  | nil => simp
  | cons h t ih =>
    simp only [List.foldl_cons]
    rw [ih]
    by_cases hc : b.contains h = true
    · rw [if_pos hc]
      constructor
      · rintro (hmem | ⟨hx, hbx⟩)
        · rcases (Hazards.mem_add acc h x).mp hmem with hx | rfl
          · exact Or.inl hx
          · exact Or.inr ⟨List.mem_cons_self _ _, hc⟩
        · exact Or.inr ⟨List.mem_cons_of_mem _ hx, hbx⟩
      · rintro (hx | ⟨hx, hbx⟩)
        · exact Or.inl ((Hazards.mem_add acc h x).mpr (Or.inl hx))
        · rcases List.mem_cons.mp hx with rfl | hx
          · exact Or.inl ((Hazards.mem_add acc x x).mpr (Or.inr rfl))
          · exact Or.inr ⟨hx, hbx⟩
    · rw [if_neg hc]
      constructor
      · rintro (hx | ⟨hx, hbx⟩)
        · exact Or.inl hx
        · exact Or.inr ⟨List.mem_cons_of_mem _ hx, hbx⟩
      · rintro (hx | ⟨hx, hbx⟩)
        · exact Or.inl hx
        · rcases List.mem_cons.mp hx with rfl | hx
          · exact absurd hbx hc
          · exact Or.inr ⟨hx, hbx⟩

theorem mem_blockedLoop (b : Hazards) (hz : Hazards) (x : Hazard) :
    x ∈ (blockedLoop b hz).elems ↔ x ∈ hz.elems ∧ x ∈ b.elems := by
  unfold blockedLoop
  rw [mem_foldl_blocked]
  simp [Hazards.new, Hazards.contains]

theorem Hazards.isEmpty_false_iff (s : Hazards) :
    s.isEmpty = false ↔ ∃ x, x ∈ s.elems := by
  unfold Hazards.isEmpty
  cases hE : s.elems with
  | nil =>
    constructor
    · intro habs; exact absurd habs (by decide)
    · rintro ⟨x, hx⟩; exact absurd hx (List.not_mem_nil x)
  | cons a t =>
    constructor
    · intro _; exact ⟨a, List.mem_cons_self a t⟩
    · intro _; rfl

theorem global_blocked_isEmpty_false (p : Policy) (hz : Hazards) :
    (p.global_blocked_hazards hz).isEmpty = false ↔
      ∃ x, x ∈ hz.elems ∧ x ∈ p.block_on_hazards.elems := by
  unfold Policy.global_blocked_hazards
  rw [Hazards.isEmpty_false_iff]
  exact exists_congr fun x => mem_blockedLoop _ _ x

theorem local_blocked_isEmpty_false (p : Policy) (id : Nat) (hz : Hazards) :
    (p.local_blocked_hazards id hz).isEmpty = false ↔
      ∃ x, x ∈ hz.elems ∧ x ∈ (localBlockSet p id).elems := by
  unfold Policy.local_blocked_hazards localBlockSet
  cases hlook : lookupDevice p.block_device_on_hazards id with
  | none =>
    constructor
    · intro habs; exact absurd habs (show ¬Hazards.new.isEmpty = false by decide)
    · rintro ⟨x, hx, habs⟩; exact absurd habs (List.not_mem_nil x)
  | some local_hazards =>
    rw [Hazards.isEmpty_false_iff]
    exact exists_congr fun x => mem_blockedLoop _ _ x

theorem startLoop_all_ok (subscribe : Nat → Except Error Unit)
    (hsub : ∀ n, subscribe n = Except.ok ()) :
    ∀ l : List (Nat × Device),
      startLoop subscribe l =
        Except.ok
          ((l.filter fun p => !p.2.event_handle.isSome && p.2.events.isSome).map Prod.fst)
  | [] => rfl
  | (id, device) :: rest => by
    rw [startLoop]
    by_cases hh : device.event_handle.isSome = true
    · obtain ⟨x, hx⟩ := Option.isSome_iff_exists.mp hh
      rw [if_pos hh, startLoop_all_ok subscribe hsub rest]
      simp [List.filter_cons, hx]
    · have hhn : device.event_handle = none := Option.not_isSome_iff_eq_none.mp hh
      rw [if_neg hh]
      cases hev : device.events with
      | none =>
        rw [startLoop_all_ok subscribe hsub rest]
        simp [List.filter_cons, hhn, hev]
      | some ev =>
        rw [hsub id, startLoop_all_ok subscribe hsub rest]
        simp [List.filter_cons, hhn, hev]

theorem shutdownStep_eq (join : Nat → Except String Unit)
    (acc : List ShutdownAction × List String) (device : Device) :
    shutdownStep join acc device =
      (acc.1 ++ shutdownDeviceActions device,
        acc.2 ++ shutdownDeviceLog join device) := by
  unfold shutdownStep shutdownDeviceActions shutdownDeviceLog
  cases device.events with
  | none =>
    cases device.event_handle with
    | none => simp
    | some h => cases hj : join h <;> simp [hj]
  | some ev =>
    cases device.event_handle with
    | none => simp
    | some h => cases hj : join h <;> simp [hj, List.append_assoc]

theorem shutdown_foldl (join : Nat → Except String Unit) :
    ∀ (l : List Device) (acc : List ShutdownAction × List String),
      l.foldl (shutdownStep join) acc =
        (acc.1 ++ l.flatMap shutdownDeviceActions,
          acc.2 ++ l.flatMap (shutdownDeviceLog join))
  | [], acc => by simp
  | d :: t, acc => by
    simp only [List.foldl_cons, shutdownStep_eq, shutdown_foldl join t,
      List.flatMap_cons, List.append_assoc]

theorem filter_eligible_nil (l : List (Nat × Device))
    (h : ∀ p ∈ l, p.2.events = none) :
    (l.filter fun p => !p.2.event_handle.isSome && p.2.events.isSome).map Prod.fst
      = [] := by
  rw [List.filter_eq_nil_iff.mpr, List.map_nil]
  intro p hp
  simp [h p hp]

/-! ## Claim theorems -/

/-- Claim C10: hazard numeric identifiers round-trip (`from_id (id h) =
some h`), every identifier outside `0..=23` maps to `none`, and `id` is
injective over the 24 hazards. -/
theorem C10_hazard_id_round_trip :
    (∀ h : Hazard, Hazard.from_id h.id = some h) ∧
    (∀ n : Nat, 24 ≤ n → Hazard.from_id n = none) ∧
    (∀ a b : Hazard, a.id = b.id → a = b) := by
  refine ⟨by decide, ?_, by decide⟩
  intro n hn
  obtain ⟨k, rfl⟩ : ∃ k, n = k + 24 := ⟨n - 24, by omega⟩
  rfl

/-- Witness for C10 at concrete inputs: identifier 1000 is invalid, and
`FireHazard` round-trips through its identifier. -/
theorem C10_hazard_id_round_trip_witness :
    Hazard.from_id 1000 = none ∧
      Hazard.from_id Hazard.FireHazard.id = some Hazard.FireHazard ∧
      Hazard.Explosion = Hazard.Explosion :=
  ⟨C10_hazard_id_round_trip.2.1 1000 (by decide),
   C10_hazard_id_round_trip.1 Hazard.FireHazard,
   C10_hazard_id_round_trip.2.2 Hazard.Explosion Hazard.Explosion rfl⟩

/-- Claim C1: the skip flag cached at `RequestSender` construction is
true iff the declared hazard set meets the global block set or the local
block set for the device id; when the route declares no hazards, policy
evaluation is bypassed and skip is false regardless of the policy. -/
theorem C1_skip_iff_blocked (ds : DeviceSender) (route : String) (request : Request)
    (s : RequestSender) (warnings : List Warning)
    (hreq : ds.device.request route = some request)
    (hok : ds.request route = Except.ok (s, warnings)) :
    (s.skip = true ↔
      ((∃ h, h ∈ request.hazards.elems ∧
          h ∈ ds.controller.privacy_policy.block_on_hazards.elems) ∨
       (∃ h, h ∈ request.hazards.elems ∧
          h ∈ (localBlockSet ds.controller.privacy_policy ds.id).elems))) ∧
    (request.hazards.isEmpty = true → s.skip = false) := by
  by_cases he : request.hazards.isEmpty = true
  · have hnil : request.hazards.elems = [] := by
      revert he
      unfold Hazards.isEmpty
      cases request.hazards.elems with
      | nil => intro _; rfl
      | cons a t => intro habs; exact Bool.noConfusion habs
    simp only [DeviceSender.request, hreq, he, if_true, Except.ok.injEq,
      Prod.mk.injEq] at hok
    obtain ⟨hs, -⟩ := hok
    subst hs
    simp [hnil]
  · simp only [DeviceSender.request, hreq, DeviceSender.evaluate_privacy_policy,
      Except.ok.injEq, Prod.mk.injEq] at hok
    obtain ⟨hs, -⟩ := hok
    subst hs
    refine ⟨?_, fun habs => absurd habs he⟩
    rw [if_neg he]
    simp only [Bool.or_eq_true, Bool.not_eq_true']
    rw [global_blocked_isEmpty_false, local_blocked_isEmpty_false]

/-- Witness for C1 at a concrete construction: a device with one
hazardless route `/on`; the sender built for it is never skipped. -/
theorem C1_skip_iff_blocked_witness :
    ((⟨Controller.from_devices 0 [⟨[("/on", ⟨Hazards.new, []⟩)], none, none⟩],
        ⟨[("/on", ⟨Hazards.new, []⟩)], none, none⟩, 0⟩ : DeviceSender).request "/on" =
      Except.ok (⟨Controller.from_devices 0 [⟨[("/on", ⟨Hazards.new, []⟩)], none, none⟩],
        ⟨Hazards.new, []⟩, false⟩, [])) ∧
    (⟨Controller.from_devices 0 [⟨[("/on", ⟨Hazards.new, []⟩)], none, none⟩],
        ⟨Hazards.new, []⟩, false⟩ : RequestSender).skip = false := by
  refine ⟨rfl, ?_⟩
  exact (C1_skip_iff_blocked
    ⟨Controller.from_devices 0 [⟨[("/on", ⟨Hazards.new, []⟩)], none, none⟩],
      ⟨[("/on", ⟨Hazards.new, []⟩)], none, none⟩, 0⟩
    "/on" ⟨Hazards.new, []⟩
    ⟨Controller.from_devices 0 [⟨[("/on", ⟨Hazards.new, []⟩)], none, none⟩],
      ⟨Hazards.new, []⟩, false⟩ []
    rfl rfl).2 rfl

/-- Claim C4: `Controller.device` fails with the empty-registry error
whenever the registry is empty (never the not-found error, which differs
from it for every id), fails with the device-not-found error when the
registry is non-empty and the id is out of range, and
`DeviceSender.request` fails with the route-not-found error exactly when
the device has no descriptor keyed by the route.  All three are computed
immediately (the functions are pure; no retry exists). -/
theorem C4_sender_errors (c : Controller) (id : Nat) (ds : DeviceSender) (route : String) :
    (c.devices = [] →
      c.device id = Except.error (sender_error "No devices found.")) ∧
    (c.devices ≠ [] → c.devices.length ≤ id →
      c.device id = Except.error (sender_error
        ("Error in retrieving the device with identifier " ++ toString id ++ "."))) ∧
    (sender_error ("Error in retrieving the device with identifier " ++ toString id ++ ".") ≠
      sender_error "No devices found.") ∧
    (ds.device.request route = none ↔
      ds.request route = Except.error (sender_error
        ("Error in retrieving the request with route `" ++ route ++ "`."))) := by
  refine ⟨?_, ?_, ?_, ?_⟩
  · intro hnil
    unfold Controller.device
    rw [if_pos (by simp [hnil])]
  · intro hne hlen
    unfold Controller.device
    rw [if_neg (by simp [hne]), List.getElem?_eq_none hlen]
  · intro habs
    have hmsg := congrArg Error.message habs
    simp only [sender_error] at hmsg
    have hlen := congrArg String.length hmsg
    rw [String.length_append, String.length_append] at hlen
    have h1 : "Error in retrieving the device with identifier ".length = 47 := rfl
    have h2 : ".".length = 1 := rfl
    have h3 : "No devices found.".length = 17 := rfl
    omega
  · constructor
    · intro hnone
      simp [DeviceSender.request, hnone]
    · intro herr
      cases hlook : ds.device.request route with
      | none => rfl
      | some request =>
        rw [DeviceSender.request] at herr
        simp only [hlook] at herr
        exact absurd herr (by simp)

/-- Witness for C4 at concrete inputs: an empty registry yields the
empty-registry error, id 1 on a one-device registry yields the not-found
error, and an absent route yields the route-not-found error. -/
theorem C4_sender_errors_witness :
    (Controller.new 0).device 5 = Except.error (sender_error "No devices found.") ∧
    (Controller.from_devices 0 [⟨[], none, none⟩]).device 1 =
      Except.error (sender_error
        ("Error in retrieving the device with identifier " ++ toString (1 : Nat) ++ ".")) ∧
    (⟨Controller.from_devices 0 [⟨[], none, none⟩], ⟨[], none, none⟩, 0⟩ :
        DeviceSender).request "/x" =
      Except.error (sender_error
        ("Error in retrieving the request with route `" ++ "/x" ++ "`.")) :=
  ⟨(C4_sender_errors (Controller.new 0) 5
      ⟨Controller.new 0, ⟨[], none, none⟩, 0⟩ "/x").1 rfl,
   (C4_sender_errors (Controller.from_devices 0 [⟨[], none, none⟩]) 1
      ⟨Controller.new 0, ⟨[], none, none⟩, 0⟩ "/x").2.1 (by decide) (by decide),
   ((C4_sender_errors (Controller.new 0) 5
      ⟨Controller.from_devices 0 [⟨[], none, none⟩], ⟨[], none, none⟩, 0⟩
      "/x").2.2.2).mp rfl⟩

/-- Claim C5: a sender whose cached skip flag is true returns `Skipped`
from `send` with zero transport calls, for every transport; the
construction that set the flag emitted at least one warning, each naming
the blocked hazards and the rule (global or local) that blocked them; and
`Skipped` is distinct from every transport-error outcome and from every
success body. -/
theorem C5_skip_returns_skipped (ds : DeviceSender) (route : String) (request : Request)
    (s : RequestSender) (warnings : List Warning) (transport : Transport)
    (hreq : ds.device.request route = some request)
    (hok : ds.request route = Except.ok (s, warnings))
    (hskip : s.skip = true) :
    s.send transport = (Except.ok Response.Skipped, 0) ∧
    (∀ e : Error, (Except.ok Response.Skipped : Except Error Response) ≠ Except.error e) ∧
    (∀ body, Response.Skipped ≠ Response.OkBody body) ∧
    warnings ≠ [] ∧
    (∀ w ∈ warnings,
      (w = Warning.globalRule route
            (ds.controller.privacy_policy.global_blocked_hazards request.hazards) ∧
        (ds.controller.privacy_policy.global_blocked_hazards request.hazards).isEmpty
          = false) ∨
      (w = Warning.localRule route
            (ds.controller.privacy_policy.local_blocked_hazards ds.id request.hazards) ∧
        (ds.controller.privacy_policy.local_blocked_hazards ds.id request.hazards).isEmpty
          = false)) := by
  refine ⟨?_, fun e h => Except.noConfusion h, fun body h => Response.noConfusion h, ?_, ?_⟩
  · simp [RequestSender.send, Request.retrieve_response, hskip]
  all_goals by_cases he : request.hazards.isEmpty = true
  · simp only [DeviceSender.request, hreq, he, if_true, Except.ok.injEq,
      Prod.mk.injEq] at hok
    obtain ⟨hs, -⟩ := hok
    subst hs
    exact absurd hskip (by simp)
  · simp only [DeviceSender.request, hreq, DeviceSender.evaluate_privacy_policy,
      Except.ok.injEq, Prod.mk.injEq] at hok
    obtain ⟨hs, hw⟩ := hok
    subst hs
    subst hw
    rw [if_neg he] at hskip ⊢
    simp only [RequestSender.skip] at hskip
    rcases Bool.or_eq_true _ _ |>.mp hskip with hg | hl
    · have hg' : (ds.controller.privacy_policy.global_blocked_hazards
          request.hazards).isEmpty = false := by simpa using hg
      rw [if_neg (by simp [hg'])]
      simp
    · have hl' : (ds.controller.privacy_policy.local_blocked_hazards ds.id
          request.hazards).isEmpty = false := by simpa using hl
      by_cases hg : (ds.controller.privacy_policy.global_blocked_hazards
          request.hazards).isEmpty = true
      · rw [if_pos hg, if_neg (by simp [hl'])]
        simp
      · rw [if_neg hg, if_neg (by simp [hl'])]
        simp
  · simp only [DeviceSender.request, hreq, he, if_true, Except.ok.injEq,
      Prod.mk.injEq] at hok
    obtain ⟨hs, -⟩ := hok
    subst hs
    exact absurd hskip (by simp)
  · simp only [DeviceSender.request, hreq, DeviceSender.evaluate_privacy_policy,
      Except.ok.injEq, Prod.mk.injEq] at hok
    obtain ⟨hs, hw⟩ := hok
    subst hs
    subst hw
    rw [if_neg he]
    intro w hwmem
    rcases List.mem_append.mp hwmem with hmem | hmem
    · by_cases hg : (ds.controller.privacy_policy.global_blocked_hazards
          request.hazards).isEmpty = true
      · rw [if_pos hg] at hmem
        exact absurd hmem (List.not_mem_nil w)
      · rw [if_neg hg] at hmem
        exact Or.inl ⟨List.mem_singleton.mp hmem, Bool.eq_false_iff.mpr hg⟩
    · by_cases hl : (ds.controller.privacy_policy.local_blocked_hazards ds.id
          request.hazards).isEmpty = true
      · rw [if_pos hl] at hmem
        exact absurd hmem (List.not_mem_nil w)
      · rw [if_neg hl] at hmem
        exact Or.inr ⟨List.mem_singleton.mp hmem, Bool.eq_false_iff.mpr hl⟩

/-- Witness for C5 at a concrete construction: a route carrying
`FireHazard` under a policy whose global block set holds `FireHazard`;
the constructed sender is skipped and `send` returns `Skipped` with no
transport call. -/
theorem C5_skip_returns_skipped_witness :
    (⟨(Controller.from_devices 0
          [⟨[("/toggle", ⟨⟨[Hazard.FireHazard]⟩, []⟩)], none, none⟩]).policy
        (Policy.new ⟨[Hazard.FireHazard]⟩),
      ⟨⟨[Hazard.FireHazard]⟩, []⟩, true⟩ : RequestSender).send
      ⟨Except.ok (Response.OkBody ⟨0⟩), fun _ => Except.ok (Response.OkBody ⟨0⟩)⟩ =
      (Except.ok Response.Skipped, 0) :=
  (C5_skip_returns_skipped
    ⟨(Controller.from_devices 0
          [⟨[("/toggle", ⟨⟨[Hazard.FireHazard]⟩, []⟩)], none, none⟩]).policy
        (Policy.new ⟨[Hazard.FireHazard]⟩),
      ⟨[("/toggle", ⟨⟨[Hazard.FireHazard]⟩, []⟩)], none, none⟩, 0⟩
    "/toggle" ⟨⟨[Hazard.FireHazard]⟩, []⟩
    ⟨(Controller.from_devices 0
          [⟨[("/toggle", ⟨⟨[Hazard.FireHazard]⟩, []⟩)], none, none⟩]).policy
        (Policy.new ⟨[Hazard.FireHazard]⟩),
      ⟨⟨[Hazard.FireHazard]⟩, []⟩, true⟩
    [Warning.globalRule "/toggle" ⟨[Hazard.FireHazard]⟩]
    ⟨Except.ok (Response.OkBody ⟨0⟩), fun _ => Except.ok (Response.OkBody ⟨0⟩)⟩
    rfl rfl rfl).1

/-- Claim C6: the skip decision is cached at construction: replacing the
controller's policy afterwards (`change_policy`), as seen through the
sender's borrowed controller, changes neither the cached flag nor the
outcome of `send` / `send_with_parameters`; moreover both sends consult
only the cached flag and the request, never the policy. -/
theorem C6_skip_cached_across_change_policy (c : Controller) (d : Nat)
    (ds : DeviceSender) (route : String) (s : RequestSender) (warnings : List Warning)
    (p' : Policy)
    (hds : c.device d = Except.ok ds)
    (hok : ds.request route = Except.ok (s, warnings)) :
    ({ s with controller := s.controller.change_policy p' } : RequestSender).skip = s.skip ∧
    (∀ transport,
      ({ s with controller := s.controller.change_policy p' } : RequestSender).send
          transport = s.send transport) ∧
    (∀ transport parameters,
      ({ s with controller := s.controller.change_policy p' } :
          RequestSender).send_with_parameters transport parameters =
        s.send_with_parameters transport parameters) ∧
    (∀ s₁ s₂ : RequestSender, s₁.request = s₂.request → s₁.skip = s₂.skip →
      ∀ transport, s₁.send transport = s₂.send transport) := by
  refine ⟨rfl, fun transport => rfl, fun transport parameters => rfl, ?_⟩
  intro s₁ s₂ hr hsk transport
  unfold RequestSender.send
  rw [hr, hsk]

/-- Witness for C6 at a concrete construction: the hazardless `/on`
sender keeps its outcome after a policy change that blocks everything. -/
theorem C6_skip_cached_across_change_policy_witness :
    ({ (⟨Controller.from_devices 0 [⟨[("/on", ⟨Hazards.new, []⟩)], none, none⟩],
          ⟨Hazards.new, []⟩, false⟩ : RequestSender) with
        controller :=
          (Controller.from_devices 0
            [⟨[("/on", ⟨Hazards.new, []⟩)], none, none⟩]).change_policy
            (Policy.new ⟨[Hazard.FireHazard]⟩) } : RequestSender).skip =
      (⟨Controller.from_devices 0 [⟨[("/on", ⟨Hazards.new, []⟩)], none, none⟩],
          ⟨Hazards.new, []⟩, false⟩ : RequestSender).skip :=
  (C6_skip_cached_across_change_policy
    (Controller.from_devices 0 [⟨[("/on", ⟨Hazards.new, []⟩)], none, none⟩]) 0
    ⟨Controller.from_devices 0 [⟨[("/on", ⟨Hazards.new, []⟩)], none, none⟩],
      ⟨[("/on", ⟨Hazards.new, []⟩)], none, none⟩, 0⟩
    "/on"
    ⟨Controller.from_devices 0 [⟨[("/on", ⟨Hazards.new, []⟩)], none, none⟩],
      ⟨Hazards.new, []⟩, false⟩
    [] (Policy.new ⟨[Hazard.FireHazard]⟩) rfl rfl).1

/-- Claim C9: when the route declares no parameters,
`send_with_parameters` returns exactly the result of the parameterless
`send` for any supplied values (never transmitting them); when parameters
are declared, the skip short-circuit applies, and otherwise the transport
is called with the supplied values. -/
theorem C9_send_with_parameters_fallback (s : RequestSender) (transport : Transport) :
    (s.request.parameters_data = [] →
      ∀ v₁ v₂ : ParametersValues,
        s.send_with_parameters transport v₁ = s.send transport ∧
        s.send_with_parameters transport v₁ = s.send_with_parameters transport v₂) ∧
    (s.request.parameters_data ≠ [] →
      ∀ v : ParametersValues,
        (s.skip = true →
          s.send_with_parameters transport v = (Except.ok Response.Skipped, 0)) ∧
        (s.skip = false →
          s.send_with_parameters transport v = (transport.create_response v, 1))) := by
  constructor
  · intro hempty v₁ v₂
    unfold RequestSender.send_with_parameters
    rw [if_pos (by simp [hempty]), if_pos (by simp [hempty])]
    exact ⟨rfl, rfl⟩
  · intro hne v
    have hcond : ¬(s.request.parameters_data.isEmpty = true) := by
      simpa [List.isEmpty_iff] using hne
    constructor
    · intro hskip
      unfold RequestSender.send_with_parameters
      rw [if_neg hcond]
      simp [Request.retrieve_response, hskip]
    · intro hskip
      unfold RequestSender.send_with_parameters
      rw [if_neg hcond]
      simp [Request.retrieve_response, hskip]

/-- Witness for C9 at concrete senders: a parameterless route falls back
to `send`, and a parameterized unskipped route calls the transport with
the values. -/
theorem C9_send_with_parameters_fallback_witness :
    ((⟨Controller.new 0, ⟨Hazards.new, []⟩, false⟩ : RequestSender).send_with_parameters
        ⟨Except.ok (Response.OkBody ⟨0⟩), fun v => Except.ok (Response.OkBody ⟨v.token⟩)⟩
        ⟨7⟩ =
      (⟨Controller.new 0, ⟨Hazards.new, []⟩, false⟩ : RequestSender).send
        ⟨Except.ok (Response.OkBody ⟨0⟩), fun v => Except.ok (Response.OkBody ⟨v.token⟩)⟩) ∧
    ((⟨Controller.new 0, ⟨Hazards.new, [1]⟩, false⟩ : RequestSender).send_with_parameters
        ⟨Except.ok (Response.OkBody ⟨0⟩), fun v => Except.ok (Response.OkBody ⟨v.token⟩)⟩
        ⟨7⟩ =
      (Except.ok (Response.OkBody ⟨7⟩), 1)) :=
  ⟨((C9_send_with_parameters_fallback
      ⟨Controller.new 0, ⟨Hazards.new, []⟩, false⟩
      ⟨Except.ok (Response.OkBody ⟨0⟩), fun v => Except.ok (Response.OkBody ⟨v.token⟩)⟩).1
      rfl ⟨7⟩ ⟨7⟩).1,
   ((C9_send_with_parameters_fallback
      ⟨Controller.new 0, ⟨Hazards.new, [1]⟩, false⟩
      ⟨Except.ok (Response.OkBody ⟨0⟩), fun v => Except.ok (Response.OkBody ⟨v.token⟩)⟩).2
      (by decide) ⟨7⟩).2 rfl⟩

/-- Claim C8: when every broker subscribe succeeds,
`start_event_receivers` fails with an `Events`-kind error iff zero
subscriber tasks were started (in particular on a registry where no
device has an event-source description), and otherwise returns the
consuming end of the queue of capacity `buffer_size` together with the
started device ids. -/
theorem C8_start_event_receivers_events_error (c : Controller) (buffer_size : Nat)
    (subscribe : Nat → Except Error Unit)
    (hsub : ∀ n, subscribe n = Except.ok ()) :
    (eligibleIds c.devices = [] →
      (c.start_event_receivers buffer_size subscribe).1 =
        Except.error ⟨ErrorKind.Events, "No event receiver tasks has started"⟩) ∧
    (eligibleIds c.devices ≠ [] →
      (c.start_event_receivers buffer_size subscribe).1 =
        Except.ok ⟨buffer_size, eligibleIds c.devices⟩) ∧
    (∀ e, (c.start_event_receivers buffer_size subscribe).1 = Except.error e →
      e.kind = ErrorKind.Events ∧ eligibleIds c.devices = []) ∧
    ((∀ d ∈ c.devices, d.events = none) → eligibleIds c.devices = []) := by
  have h1 : (c.start_event_receivers buffer_size subscribe).1 =
      (if (eligibleIds c.devices).length = 0
       then Except.error ⟨ErrorKind.Events, "No event receiver tasks has started"⟩
       else Except.ok ⟨buffer_size, eligibleIds c.devices⟩) := by
    simp only [Controller.start_event_receivers,
      startLoop_all_ok subscribe hsub c.devices.enum, eligibleIds]
  refine ⟨?_, ?_, ?_, ?_⟩
  · intro hnil
    rw [h1, if_pos (by simp [hnil])]
  · intro hne
    rw [h1, if_neg (by simp [List.length_eq_zero, hne])]
  · intro e he
    by_cases hnil : eligibleIds c.devices = []
    · rw [h1, if_pos (by simp [hnil])] at he
      injection he with he'
      exact ⟨by rw [← he'], hnil⟩
    · rw [h1, if_neg (by simp [List.length_eq_zero, hnil])] at he
      exact absurd he (by simp)
  · intro hnone
    unfold eligibleIds
    apply filter_eligible_nil
    intro p hp
    obtain ⟨i, a⟩ := p
    obtain ⟨hlt, ha⟩ := List.mem_enum hp
    exact hnone a (by rw [ha]; exact List.getElem_mem hlt)

/-- Witness for C8 at concrete registries: one device without an
event-source description yields the `Events` error; one device with a
description yields the queue of capacity 4 and the started id 0. -/
theorem C8_start_event_receivers_events_error_witness :
    ((Controller.from_devices 0 [⟨[], none, none⟩]).start_event_receivers 4
        (fun _ => Except.ok ())).1 =
      Except.error ⟨ErrorKind.Events, "No event receiver tasks has started"⟩ ∧
    ((Controller.from_devices 0 [⟨[], some ⟨⟨0⟩, 0⟩, none⟩]).start_event_receivers 4
        (fun _ => Except.ok ())).1 = Except.ok ⟨4, [0]⟩ :=
  ⟨(C8_start_event_receivers_events_error
      (Controller.from_devices 0 [⟨[], none, none⟩]) 4
      (fun _ => Except.ok ()) (fun _ => rfl)).1 rfl,
   (C8_start_event_receivers_events_error
      (Controller.from_devices 0 [⟨[], some ⟨⟨0⟩, 0⟩, none⟩]) 4
      (fun _ => Except.ok ()) (fun _ => rfl)).2.1 (by decide)⟩

/-- Claim C2 is violated by the code: `start_event_receivers` never
records the spawned task handle (the `JoinHandle` returned by
`run_global_subscriber` is dropped), so after a first call that started
device 0's receiver the registry is unchanged (`event_handle` still
`none`); a second call does not skip device 0 — it spawns a second
subscriber task for it, as the identical started list `[0]` shows. -/
theorem C2_second_start_spawns_again :
    ((Controller.from_devices 0 [⟨[], some ⟨⟨0⟩, 5⟩, none⟩]).start_event_receivers 4
        (fun _ => Except.ok ())).1 = Except.ok ⟨4, [0]⟩ ∧
    ((Controller.from_devices 0 [⟨[], some ⟨⟨0⟩, 5⟩, none⟩]).start_event_receivers 4
        (fun _ => Except.ok ())).2 =
      Controller.from_devices 0 [⟨[], some ⟨⟨0⟩, 5⟩, none⟩] ∧
    ((((Controller.from_devices 0 [⟨[], some ⟨⟨0⟩, 5⟩, none⟩]).start_event_receivers 4
          (fun _ => Except.ok ())).2).start_event_receivers 4
        (fun _ => Except.ok ())).1 = Except.ok ⟨4, [0]⟩ :=
  ⟨rfl, rfl, rfl⟩

/-- Claim C3: `shutdown` is the strictly sequential concatenation, in
registry order, of each device's cancel-then-await actions; the action
trace does not depend on the join outcomes (failures are only logged,
never propagated, and later devices are still processed); and every
recorded task handle is awaited. -/
theorem C3_shutdown_sequential (c : Controller) (join : Nat → Except String Unit) :
    c.shutdown join =
      (c.devices.flatMap shutdownDeviceActions,
        c.devices.flatMap (shutdownDeviceLog join)) ∧
    (∀ join₂ : Nat → Except String Unit,
      (c.shutdown join).1 = (c.shutdown join₂).1) ∧
    (∀ d ∈ c.devices, ∀ h, d.event_handle = some h →
      ShutdownAction.awaitTask h ∈ (c.shutdown join).1) := by
  have hchar : ∀ j : Nat → Except String Unit,
      c.shutdown j = (c.devices.flatMap shutdownDeviceActions,
        c.devices.flatMap (shutdownDeviceLog j)) := by
    intro j
    unfold Controller.shutdown
    rw [shutdown_foldl]
    simp
  refine ⟨hchar join, fun join₂ => by rw [hchar join, hchar join₂], ?_⟩
  intro d hd h hh
  rw [hchar join]
  apply List.mem_flatMap.mpr
  refine ⟨d, hd, ?_⟩
  unfold shutdownDeviceActions
  rw [hh]
  cases d.events <;> simp

/-- Witness for C3 at a concrete controller: one device with token 3 and
handle 9 whose await fails; the trace is cancel 3 then await 9, the
failure is logged, and the await is in the trace. -/
theorem C3_shutdown_sequential_witness :
    (Controller.from_devices 0 [⟨[], some ⟨⟨0⟩, 3⟩, some 9⟩]).shutdown
        (fun _ => Except.error "boom") =
      ([ShutdownAction.cancel 3, ShutdownAction.awaitTask 9], ["boom"]) ∧
    ShutdownAction.awaitTask 9 ∈
      ((Controller.from_devices 0 [⟨[], some ⟨⟨0⟩, 3⟩, some 9⟩]).shutdown
        (fun _ => Except.error "boom")).1 :=
  ⟨((C3_shutdown_sequential (Controller.from_devices 0 [⟨[], some ⟨⟨0⟩, 3⟩, some 9⟩])
      (fun _ => Except.error "boom")).1).trans rfl,
   (C3_shutdown_sequential (Controller.from_devices 0 [⟨[], some ⟨⟨0⟩, 3⟩, some 9⟩])
      (fun _ => Except.error "boom")).2.2 ⟨[], some ⟨⟨0⟩, 3⟩, some 9⟩
      (List.mem_singleton.mpr rfl) 9 rfl⟩

/-- Claim C7 is false as stated on the fan-out loop: at a schedule whose
only iteration polls a publish packet that decodes to an event batch but
whose broadcast send fails — with no cancellation anywhere — the fan-out
loop `run_event_subscriber` leaves its polling state (`sendFailed`), while
the claim says it continues and leaves Polling only on cancellation. -/
theorem C7_counterexample_fanout_send_failure :
    run_event_subscriber
        [Step.polled (Except.ok (MqttEvent.incoming (Packet.publish
          (Except.ok (some ⟨3⟩))))) false] = ([], some ExitReason.sendFailed) ∧
    (some ExitReason.sendFailed ≠ (none : Option ExitReason)) ∧
    (some ExitReason.sendFailed ≠ some ExitReason.cancelled) :=
  ⟨rfl, by decide, by decide⟩

/-- Claim C7 (amended): in both subscriber loops every poll fault (broker
error, non-publish packet, undecodable payload) is discarded and the loop
keeps polling; cancellation exits both loops; a failed push of a decoded
batch exits both loops — the fan-out loop, like the fan-in loop, breaks
on a failed broadcast send; and a schedule with no cancellation and no
failed send never leaves the polling state. -/
theorem C7_loop_exit_characterization (ev : Except ConnError MqttEvent)
    (sendOk : Bool) (rest : List Step) (e : ToscaEvents) (sched : List Step) :
    (parse_event ev = none →
      run_global_event_subscriber (Step.polled ev sendOk :: rest) =
          run_global_event_subscriber rest ∧
      run_event_subscriber (Step.polled ev sendOk :: rest) =
          run_event_subscriber rest) ∧
    (run_global_event_subscriber (Step.cancelled :: rest) =
        ([], some ExitReason.cancelled) ∧
      run_event_subscriber (Step.cancelled :: rest) =
        ([], some ExitReason.cancelled)) ∧
    (parse_event ev = some e →
      run_global_event_subscriber (Step.polled ev false :: rest) =
          ([], some ExitReason.sendFailed) ∧
      run_event_subscriber (Step.polled ev false :: rest) =
          ([], some ExitReason.sendFailed)) ∧
    ((∀ st ∈ sched, ∃ ev₂, st = Step.polled ev₂ true) →
      (run_global_event_subscriber sched).2 = none ∧
      (run_event_subscriber sched).2 = none) := by
  refine ⟨?_, ⟨rfl, rfl⟩, ?_, ?_⟩
  · intro hnone
    rw [run_global_event_subscriber, run_event_subscriber, hnone]
    exact ⟨rfl, rfl⟩
  · intro hsome
    rw [run_global_event_subscriber, run_event_subscriber, hsome]
    exact ⟨rfl, rfl⟩
  · intro hall
    induction sched with
    | nil => exact ⟨rfl, rfl⟩
    | cons st t ih =>
      obtain ⟨ev₂, rfl⟩ := hall st (List.mem_cons_self st t)
      have iht := ih fun s hs => hall s (List.mem_cons_of_mem _ hs)
      rw [run_global_event_subscriber, run_event_subscriber]
      cases hp : parse_event ev₂ with
      | none => exact iht
      | some b => simpa using iht

/-- Witness for C7 (amended) at concrete schedules: a broker error is
discarded and the (exhausted) schedule ends still polling, and a
cancellation step stops the fan-out loop. -/
theorem C7_loop_exit_characterization_witness :
    run_global_event_subscriber [Step.polled (Except.error ⟨"x"⟩) true] = ([], none) ∧
    run_event_subscriber [Step.cancelled] = ([], some ExitReason.cancelled) :=
  ⟨(((C7_loop_exit_characterization (Except.error ⟨"x"⟩) true [] ⟨0⟩ []).1 rfl).1).trans
      rfl,
   ((C7_loop_exit_characterization (Except.error ⟨"x"⟩) true [] ⟨0⟩ []).2.1).2⟩

end Tosca
